import Mathlib

/-!
Verification development for the AEGIS crisis-decision engine.

The definitions below are a shallow embedding of the Python sources:

* `Disaster Prediction/cheseal/cheseal_brain.py` — `ChesealBrain.calculate_risk`
  and `ChesealBrain.analyze` (risk fusion, decision state machine, action
  selection);
* `Disaster Prediction/cheseal/input_normalizer.py` — `normalize_float`,
  `get_verification_status_enum`;
* `Consequence Mirror/backend/consequences_engine.py` — `ConsequencesMirror.simulate`
  and its metric helpers;
* `Consequence Mirror/backend/cheseal_brain.py` — `ChesealBrain.calculate_coi`.

Python machine floats are modelled as exact rationals; `round(x, n)` is modelled
as round-half-to-even on rationals (`pyRound`), matching CPython at every value
evaluated in this file.
-/

namespace Aegis

section AegisModel

/- The Batteries rational primitives are `@[irreducible]`, which blocks the
`decide` evaluator (not the kernel); restore default reducibility locally so
concrete evaluations of the model reduce. -/
attribute [local semireducible] Rat.ofScientific Rat.mul Rat.inv Rat.add Rat.sub

/-- Model of Python `round(x, n)`: round half to even at `n` decimal digits. -/
def pyRound (x : ℚ) (n : ℕ) : ℚ :=
  let p : ℚ := (10 : ℚ) ^ n
  let y := x * p
  let f : ℤ := Int.floor y
  let r := y - (f : ℚ)
  if r < 1/2 then (f : ℚ) / p
  else if 1/2 < r then ((f : ℚ) + 1) / p
  else if f % 2 = 0 then (f : ℚ) / p
  else ((f : ℚ) + 1) / p

/--
The merged risk vector handed to `ChesealBrain.calculate_risk`
(`cheseal_brain.py`, built in `analyze` lines 224-237 as classifier flags
updated with caller-supplied signals).  Numeric entries are `Option ℚ`
(`none` = key absent), classification flags are booleans, and the per-category
match counts that the decision logic reads (`scores["MEDICAL_TRAUMA"]`,
`scores["MEDICAL_INFECTIOUS_WATER_FOOD"]`, `scores["MEDICAL_INFECTIOUS_VECTOR"]`)
are naturals.  The `q*` fields record whether the lowercased question text
contains the corresponding literal substring checked in `analyze`.
-/
structure BrainInput where
  is_medical : Bool := false
  is_environmental : Bool := false
  is_cold : Bool := false
  is_heat : Bool := false
  is_mental : Bool := false
  is_gastro : Bool := false
  is_cardiac : Bool := false
  is_neuro : Bool := false
  is_respiratory : Bool := false
  is_activity : Bool := false
  is_prevention : Bool := false
  is_trauma : Bool := false
  scoreTrauma : ℕ := 0
  scoreWaterFood : ℕ := 0
  scoreVector : ℕ := 0
  flood_risk : Option ℚ := none
  flood : Option ℚ := none
  hospital_capacity : Option ℚ := none
  icu_capacity : Option ℚ := none
  is_verified : Bool := false
  previous_state : Option String := none
  qHospital : Bool := false
  qDoctor : Bool := false
  qChocolate : Bool := false
  qCoclates : Bool := false
  deriving Repr, DecidableEq

/-- Result record of `ChesealBrain.calculate_risk` (`cheseal_brain.py` 209-214). -/
structure RiskResult where
  decision : String
  risk_score : ℚ
  risk_state : String
  source : String
  deriving Repr, DecidableEq

/--
`get_val(keys, default=0.5)` inside `calculate_risk` (`cheseal_brain.py` 162-167):
first present key wins, otherwise the 0.5 default.  (The Python `float(...)`
coercion failure path is not representable here: numeric entries are already
rationals.)
-/
def getVal (primary fallback : Option ℚ) : ℚ :=
  match primary with
  | some v => v
  | none =>
    match fallback with
    | some v => v
    | none => 1/2

/--
`ChesealBrain.calculate_risk` (`cheseal_brain.py` 151-214).  Risk fusion:
the flood signal is dampened to `v*0.5 + 0.25` when unverified, the hospital
signal enters unscaled; weighted blend `0.7/0.3` overridden by `max` when
either component exceeds `0.8`; score rounded to two decimals; then the
branch cascade medical > extreme-cold > evacuation hysteresis > thresholds.
-/
def calculate_risk (rv : BrainInput) (is_verified : Bool)
    (previous_state : Option String) : RiskResult :=
  let flood_val := getVal rv.flood_risk rv.flood
  let hosp_val := getVal rv.hospital_capacity rv.icu_capacity
  let final_flood := if is_verified then flood_val else flood_val * (1/2) + 1/4
  let source_label := if is_verified then "Verified Sensor" else "Inference"
  let base_score := final_flood * (7/10) + hosp_val * (3/10)
  let peak_score :=
    if final_flood > 4/5 ∨ hosp_val > 4/5 then max final_flood hosp_val else base_score
  let risk_score := pyRound peak_score 2
  if rv.is_medical && !rv.is_environmental then
    let is_critical := rv.is_cardiac || rv.is_respiratory || rv.is_gastro ||
      rv.is_neuro || decide (0 < rv.scoreTrauma)
    if rv.is_prevention && !is_critical then
      { decision := "PREVENTIVE ADVISORY - PROCEED WITH CAUTION"
        risk_score := risk_score, risk_state := "HEALTH WATCH", source := source_label }
    else
      { decision := "MEDICAL ADVISORY - RESTRICT ACTIVITY"
        risk_score := risk_score, risk_state := "HEALTH ALERT", source := source_label }
  else if rv.is_cold then
    { decision := "EXTREME COLD ADVISORY"
      risk_score := risk_score, risk_state := "ENVIRONMENTAL ALERT", source := source_label }
  else if previous_state = some "EVACUATION_ORDER" then
    if risk_score < 45/100 then
      { decision := "REVOKE EVACUATION"
        risk_score := risk_score, risk_state := "ALL CLEAR", source := source_label }
    else
      { decision := "MAINTAIN EVACUATION"
        risk_score := risk_score, risk_state := "CRITICAL", source := source_label }
  else if risk_score > 3/4 then
    { decision := "INITIATE EVACUATION"
      risk_score := risk_score, risk_state := "CRITICAL", source := source_label }
  else if risk_score < 35/100 then
    { decision := "NORMAL OPERATIONS"
      risk_score := risk_score, risk_state := "LOW RISK", source := source_label }
  else
    { decision := "SHELTER IN PLACE"
      risk_score := risk_score, risk_state := "HIGH ALERT", source := source_label }

example :
    (calculate_risk { flood_risk := some (6/10) } true (some "EVACUATION_ORDER")).decision
      = "MAINTAIN EVACUATION" := by decide

example :
    (calculate_risk { flood_risk := some (34/100) } true (some "EVACUATION_ORDER")).risk_score
      = 39/100 := by decide

/-- The risk-fusion score of `calculate_risk` before rounding
(`cheseal_brain.py` 169-176), extracted for reuse in statements. -/
def fusedScore (rv : BrainInput) (is_verified : Bool) : ℚ :=
  let flood_val := getVal rv.flood_risk rv.flood
  let hosp_val := getVal rv.hospital_capacity rv.icu_capacity
  let final_flood := if is_verified then flood_val else flood_val * (1/2) + 1/4
  let base_score := final_flood * (7/10) + hosp_val * (3/10)
  if final_flood > 4/5 ∨ hosp_val > 4/5 then max final_flood hosp_val else base_score

/-- The fusion rule as claim C3 words it — with BOTH numeric signals dampened
when unverified.  Stated only to compare against the code's `fusedScore`. -/
def fusedScoreSpecC3 (rv : BrainInput) (is_verified : Bool) : ℚ :=
  let flood_val := getVal rv.flood_risk rv.flood
  let hosp_raw := getVal rv.hospital_capacity rv.icu_capacity
  let final_flood := if is_verified then flood_val else flood_val * (1/2) + 1/4
  let final_hosp := if is_verified then hosp_raw else hosp_raw * (1/2) + 1/4
  let base_score := final_flood * (7/10) + final_hosp * (3/10)
  if final_flood > 4/5 ∨ final_hosp > 4/5 then max final_flood final_hosp else base_score

/-- The score field of `calculate_risk` is the rounded fused score, whatever
branch produces the decision. -/
theorem risk_score_eq (rv : BrainInput) (iv : Bool) (ps : Option String) :
    (calculate_risk rv iv ps).risk_score = pyRound (fusedScore rv iv) 2 := by
  simp only [calculate_risk, fusedScore]
  repeat' split
  all_goals rfl

-- === Action-protocol tables (`cheseal_brain.py` 94-105) ===

def PROTOCOLS_EVACUATE : List String :=
  ["INITIATE IMMEDIATE EVACUATION", "Follow Designated Routes"]

def PROTOCOLS_SHELTER : List String :=
  ["SHELTER IN PLACE", "Seal Windows/Doors"]

def PROTOCOLS_HOLD : List String :=
  ["HOLD POSITION", "Monitor Broadcasts"]

def PROTOCOLS_MEDICAL_COLD : List String :=
  ["Wear Thermal Layers", "Cover Exposed Skin", "Keep Dry"]

def PROTOCOLS_MEDICAL_HEAT : List String :=
  ["Hydrate Frequently", "Seek Shade/AC", "Avoid Sun"]

def PROTOCOLS_MEDICAL_GASTRO : List String :=
  ["Do Not Eat/Drink (NPO)", "Seek Surgical Consult Immediately"]

def PROTOCOLS_MEDICAL_VECTOR : List String :=
  ["Apply DEET Repellent", "Use Mosquito Nets"]

def PROTOCOLS_MEDICAL_WATER : List String :=
  ["Sip ORS (Rehydration Salts) Slowly", "Seek IV Fluids if Vomiting Persists",
   "Stop Solid Foods"]

/-- Byte-wise list-of-characters test: the first list starts the second. -/
def charsStart : List Char → List Char → Bool
  | [], _ => true
  | _ :: _, [] => false
  | a :: as, b :: bs => a == b && charsStart as bs

/-- The first list occurs somewhere inside the second. -/
def charsSub (needle : List Char) : List Char → Bool
  | [] => needle.isEmpty
  | b :: bs => charsStart needle (b :: bs) || charsSub needle bs

/-- Python `needle in hay` on strings. -/
def strIn (needle hay : String) : Bool := charsSub needle.toList hay.toList

/--
The medical-triage action block of `ChesealBrain.analyze`
(`cheseal_brain.py` 243-295), entered when `is_medical or is_prevention`.
Each `let` mirrors one append/insert group, in source order.
-/
def medicalActions (inp : BrainInput) : List String :=
  let a1 : List String :=
    if inp.qHospital || inp.qDoctor then ["GO TO NEAREST EMERGENCY ROOM (ER)"] else []
  let a2 :=
    if inp.is_gastro || decide (0 < inp.scoreWaterFood) then
      a1 ++ (if inp.qChocolate || inp.qCoclates then ["Monitor Blood Sugar (Possible Spike)"] else [])
         ++ (if 0 < inp.scoreWaterFood then PROTOCOLS_MEDICAL_WATER else [])
         ++ (if inp.is_gastro then PROTOCOLS_MEDICAL_GASTRO else [])
    else a1
  let a3 := a2 ++ (if inp.is_neuro then
      ["Sit or Lie Down Immediately", "Drink Water (if conscious)", "Monitor Consciousness"] else [])
  let a4 := a3 ++ (if inp.is_mental then ["Box Breathing (4-4-4)", "Find Quiet Space"] else [])
  let a5 := a4 ++ (if inp.is_respiratory && !(inp.is_gastro || decide (0 < inp.scoreWaterFood)) then
      ["Sit Upright", "Monitor Oxygen", "Isolate"] else [])
  let a6 := a5 ++ (if 0 < inp.scoreVector then PROTOCOLS_MEDICAL_VECTOR else [])
  let a7 :=
    if inp.is_activity then
      if inp.is_respiratory || inp.is_cardiac || inp.is_trauma || inp.is_mental || inp.is_neuro then
        "MEDICAL CONTRAINDICATION: STOP ACTIVITY" :: "ABORT IMMEDIATELY - High Risk" :: a6
      else if inp.is_prevention then a6 ++ ["Proceed with Caution"]
      else a6
    else a6
  if a7.isEmpty && !inp.is_cold then
    if inp.is_prevention && !(inp.is_respiratory || inp.is_cardiac) then
      ["Maintain Standard Hygiene"]
    else ["SEEK MEDICAL ATTENTION"]
  else a7

/-- Sections A/B of the action builder (`cheseal_brain.py` 243-299). -/
def sectionActions (inp : BrainInput) : List String :=
  if inp.is_medical || inp.is_prevention then medicalActions inp
  else if inp.is_cold then PROTOCOLS_MEDICAL_COLD
  else if inp.is_heat then PROTOCOLS_MEDICAL_HEAT
  else []

/-- Section C default-protocol fallback (`cheseal_brain.py` 302-305),
chosen by substring tests on the decision string. -/
def defaultProtocol (decision : String) : List String :=
  if strIn "EVACUATE" decision then PROTOCOLS_EVACUATE
  else if strIn "SHELTER" decision then PROTOCOLS_SHELTER
  else PROTOCOLS_HOLD

/-- The full working action list before deduplication
(`cheseal_brain.py` 239-305). -/
def rawActions (inp : BrainInput) (decision : String) : List String :=
  let a := sectionActions inp
  if a.isEmpty then defaultProtocol decision else a

/-- First-seen-order deduplication, the model of Python
`dict.fromkeys` (`cheseal_brain.py` 308). -/
def dedupFirstAux (seen : List String) : List String → List String
  | [] => []
  | a :: l => if a ∈ seen then dedupFirstAux seen l else a :: dedupFirstAux (a :: seen) l

def dedupFirst (l : List String) : List String := dedupFirstAux [] l

/-- `list(dict.fromkeys(actions))[:3]` plus the empty-list fallback
(`cheseal_brain.py` 308-309). -/
def finalizeActions (l : List String) : List String :=
  let u := (dedupFirst l).take 3
  if u.isEmpty then ["Monitor Situation", "Contact Support"] else u

/-- Output record of `ChesealBrain.analyze` (`cheseal_brain.py` 327-334).
The `response` prose block is presentation-layer string formatting of these
same fields and is not modelled. -/
structure AnalyzeResult where
  decision : String
  risk_score : ℚ
  risk_level : String
  action_items : List String
  deriving Repr, DecidableEq

/--
`ChesealBrain.analyze` (`cheseal_brain.py` 216-334).  The input is the merged
final vector: classifier flags possibly overridden by caller signals (the
merge `final_vector.update(api_signals)` lets the caller set any field, so
quantifying over `BrainInput` covers every reachable call).  Verification and
previous state are read from the merged vector with `get(..., False)` /
`get(...)` defaults.
-/
def analyze (inp : BrainInput) : AnalyzeResult :=
  let result := calculate_risk inp inp.is_verified inp.previous_state
  { decision := result.decision
    risk_score := result.risk_score
    risk_level := result.risk_state
    action_items := finalizeActions (rawActions inp result.decision) }

-- === Claim C1 ===

/--
Claim C1 (counterexample): a call with `previous_state = EVACUATION_ORDER`
whose merged vector carries a medical flag takes the medical branch, so the
decision is neither REVOKED nor MAINTAIN_EVACUATION even though the risk
score (0.5) is at least 0.45 — refuting the claim quantified over every call.
-/
theorem hysteresis_unconditional_counterexample :
    (calculate_risk { is_medical := true } false (some "EVACUATION_ORDER")).decision
        = "MEDICAL ADVISORY - RESTRICT ACTIVITY"
    ∧ ¬ (calculate_risk { is_medical := true } false (some "EVACUATION_ORDER")).risk_score
        < 45/100
    ∧ (calculate_risk { is_medical := true } false (some "EVACUATION_ORDER")).decision
        ≠ "MAINTAIN EVACUATION" := by
  decide

/--
Claim C1 (amended): for every call with `previous_state = EVACUATION_ORDER`
in which neither the medical-only branch nor the extreme-cold branch fires,
the decision is REVOKE EVACUATION iff the computed risk score is below 0.45,
and MAINTAIN EVACUATION otherwise.
-/
theorem hysteresis_band (rv : BrainInput) (iv : Bool)
    (hmed : (rv.is_medical && !rv.is_environmental) = false)
    (hcold : rv.is_cold = false) :
    ((calculate_risk rv iv (some "EVACUATION_ORDER")).decision = "REVOKE EVACUATION"
        ↔ (calculate_risk rv iv (some "EVACUATION_ORDER")).risk_score < 45/100)
    ∧ ((calculate_risk rv iv (some "EVACUATION_ORDER")).decision = "MAINTAIN EVACUATION"
        ↔ ¬ (calculate_risk rv iv (some "EVACUATION_ORDER")).risk_score < 45/100) := by
  simp only [calculate_risk, hmed, hcold, Bool.false_eq_true, if_false, ↓reduceIte]
  repeat' split
  all_goals simp_all

/-- Claim C1 witness: verified flood 0.6 under a standing evacuation order
keeps the order (score 0.57). -/
theorem hysteresis_band_witness :
    ((calculate_risk { flood_risk := some (6/10) } true (some "EVACUATION_ORDER")).decision
        = "REVOKE EVACUATION"
      ↔ (calculate_risk { flood_risk := some (6/10) } true
          (some "EVACUATION_ORDER")).risk_score < 45/100)
    ∧ ((calculate_risk { flood_risk := some (6/10) } true (some "EVACUATION_ORDER")).decision
        = "MAINTAIN EVACUATION"
      ↔ ¬ (calculate_risk { flood_risk := some (6/10) } true
          (some "EVACUATION_ORDER")).risk_score < 45/100) :=
  hysteresis_band { flood_risk := some (6/10) } true rfl rfl

-- === Claim C2 ===

/--
Claim C2 (code bug): the docstring of `calculate_risk` promises a risk score
in 0-1 and the spec an explicit clamp, but the code never clamps: a present
out-of-range signal (`flood_risk = 5.0`, verified) yields `risk_score = 5.0`.
-/
theorem risk_score_not_clamped :
    (calculate_risk { flood_risk := some 5 } true none).risk_score = 5
    ∧ ¬ (calculate_risk { flood_risk := some 5 } true none).risk_score ≤ 1 := by
  decide

-- === Claim C3 ===

/--
Claim C3 (counterexample): with `flood_risk = 0.1`, `hospital_capacity = 0.9`,
unverified, the code leaves the hospital signal undampened (0.9 > 0.8 triggers
the max override, score 0.9), while dampening every signal as the claim states
would give score 0.42.
-/
theorem dampening_counterexample :
    (calculate_risk { flood_risk := some (1/10), hospital_capacity := some (9/10) }
        false none).risk_score = 9/10
    ∧ pyRound (fusedScoreSpecC3
        { flood_risk := some (1/10), hospital_capacity := some (9/10) } false) 2 = 42/100
    ∧ (calculate_risk { flood_risk := some (1/10), hospital_capacity := some (9/10) }
        false none).risk_score
      ≠ pyRound (fusedScoreSpecC3
        { flood_risk := some (1/10), hospital_capacity := some (9/10) } false) 2 := by
  decide

/--
Claim C3 (amended): in risk fusion only the flood signal is dampened to
`v*0.5 + 0.25` when verification is UNVERIFIED; the hospital signal enters
the blend unscaled either way, and when VERIFIED both pass through unscaled.
-/
theorem dampening_flood_only (rv : BrainInput) (iv : Bool) (ps : Option String)
    (f h : ℚ) (hf : rv.flood_risk = some f) (hh : rv.hospital_capacity = some h) :
    (calculate_risk rv iv ps).risk_score =
      pyRound (if (if iv then f else f * (1/2) + 1/4) > 4/5 ∨ h > 4/5
               then max (if iv then f else f * (1/2) + 1/4) h
               else (if iv then f else f * (1/2) + 1/4) * (7/10) + h * (3/10)) 2 := by
  rw [risk_score_eq]
  simp only [fusedScore, getVal, hf, hh]

/-- Claim C3 witness: unverified flood 0.5 with hospital 0.9 evaluates the
amended fusion formula. -/
theorem dampening_flood_only_witness :
    (calculate_risk { flood_risk := some (1/2), hospital_capacity := some (9/10) }
        false none).risk_score =
      pyRound (if (if false then (1/2 : ℚ) else (1/2 : ℚ) * (1/2) + 1/4) > 4/5 ∨ (9/10 : ℚ) > 4/5
               then max (if false then (1/2 : ℚ) else (1/2 : ℚ) * (1/2) + 1/4) (9/10)
               else (if false then (1/2 : ℚ) else (1/2 : ℚ) * (1/2) + 1/4) * (7/10)
                    + (9/10) * (3/10)) 2 :=
  dampening_flood_only
    { flood_risk := some (1/2), hospital_capacity := some (9/10) }
    false none (1/2) (9/10) rfl rfl

-- === Claim C4 ===

/--
Claim C4 (counterexample): the call `structured_signals = {flood_risk: 0.95}`
with no previous state and no verification metadata is dampened
(`0.95*0.5 + 0.25 = 0.725`), scores 0.66 < 0.75, and shelters in place
instead of ordering an evacuation.
-/
theorem flood95_unverified_counterexample :
    (analyze { flood_risk := some (95/100) }).risk_score = 33/50
    ∧ ¬ (3/4 : ℚ) ≤ (analyze { flood_risk := some (95/100) }).risk_score
    ∧ (analyze { flood_risk := some (95/100) }).decision = "SHELTER IN PLACE"
    ∧ (analyze { flood_risk := some (95/100) }).risk_level = "HIGH ALERT" := by
  decide

/--
Claim C4 (amended): with `flood_risk = 0.95` additionally marked verified and
no previous state, the risk score is 0.95 ≥ 0.75 and the decision is the
evacuation order with risk state CRITICAL.
-/
theorem flood95_verified_evacuates :
    (3/4 : ℚ) ≤ (analyze { flood_risk := some (95/100), is_verified := true }).risk_score
    ∧ (analyze { flood_risk := some (95/100), is_verified := true }).decision
        = "INITIATE EVACUATION"
    ∧ (analyze { flood_risk := some (95/100), is_verified := true }).risk_level
        = "CRITICAL" := by
  decide

-- === Claim C5: action-list invariants ===

theorem dedupFirstAux_sublist (l : List String) :
    ∀ seen, List.Sublist (dedupFirstAux seen l) l := by
  induction l with
  | nil => intro seen; simp [dedupFirstAux]
  | cons a t ih =>
    intro seen
    simp only [dedupFirstAux]
    split
    · exact List.Sublist.cons a (ih seen)
    · exact List.Sublist.cons₂ a (ih (a :: seen))

theorem mem_dedupFirstAux (l : List String) :
    ∀ (seen : List String) (x : String), x ∈ dedupFirstAux seen l → x ∉ seen := by
  induction l with
  | nil => intro seen x hx; simp [dedupFirstAux] at hx
  | cons a t ih =>
    intro seen x hx
    simp only [dedupFirstAux] at hx
    split at hx
    · exact ih seen x hx
    · rename_i hnot
      rcases List.mem_cons.mp hx with rfl | hx'
      · exact hnot
      · intro hxs
        exact ih (a :: seen) x hx' (List.mem_cons_of_mem a hxs)

theorem dedupFirstAux_nodup (l : List String) :
    ∀ seen : List String, (dedupFirstAux seen l).Nodup := by
  induction l with
  | nil => intro seen; simp [dedupFirstAux]
  | cons a t ih =>
    intro seen
    simp only [dedupFirstAux]
    split
    · exact ih seen
    · refine List.nodup_cons.mpr ⟨?_, ih (a :: seen)⟩
      intro hmem
      exact mem_dedupFirstAux t (a :: seen) a hmem (List.mem_cons_self a seen)

theorem dedupFirst_sublist (l : List String) : List.Sublist (dedupFirst l) l :=
  dedupFirstAux_sublist l []

theorem dedupFirst_nodup (l : List String) : (dedupFirst l).Nodup :=
  dedupFirstAux_nodup l []

theorem dedupFirst_ne_nil {l : List String} (h : l ≠ []) : dedupFirst l ≠ [] := by
  cases l with
  | nil => exact absurd rfl h
  | cons a t => simp [dedupFirst, dedupFirstAux]

theorem defaultProtocol_ne_nil (d : String) : defaultProtocol d ≠ [] := by
  unfold defaultProtocol PROTOCOLS_EVACUATE PROTOCOLS_SHELTER PROTOCOLS_HOLD
  split <;> try split
  all_goals simp

theorem rawActions_ne_nil (inp : BrainInput) (d : String) : rawActions inp d ≠ [] := by
  simp only [rawActions]
  split
  · exact defaultProtocol_ne_nil d
  · rename_i h
    intro hc
    simp [hc] at h

/-- The final action list of a nonempty working list: nonempty, at most 3,
duplicate-free, and a sublist (first-seen order preserved) of the input. -/
theorem finalizeActions_props (l : List String) (h : l ≠ []) :
    1 ≤ (finalizeActions l).length ∧ (finalizeActions l).length ≤ 3
    ∧ (finalizeActions l).Nodup ∧ List.Sublist (finalizeActions l) l := by
  have hd := dedupFirst_ne_nil h
  have hdl : 0 < (dedupFirst l).length := List.length_pos.mpr hd
  have htk : List.take 3 (dedupFirst l) ≠ [] := by
    intro hc
    have hlen := congrArg List.length hc
    rw [List.length_take] at hlen
    simp only [List.length_nil] at hlen
    omega
  have hemp : (List.take 3 (dedupFirst l)).isEmpty = false :=
    List.isEmpty_eq_false.mpr htk
  have hfin : finalizeActions l = List.take 3 (dedupFirst l) := by
    simp only [finalizeActions, hemp, Bool.false_eq_true, if_false]
  rw [hfin]
  refine ⟨?_, ?_, ?_, ?_⟩
  · have := List.length_pos.mpr htk
    omega
  · rw [List.length_take]
    omega
  · exact List.Nodup.sublist (List.take_sublist 3 _) (dedupFirst_nodup l)
  · exact List.Sublist.trans (List.take_sublist 3 _) (dedupFirst_sublist l)

/--
Claim C5: for every input, the action list returned by `analyze` has between
1 and 3 entries, no duplicates, and is a sublist of the undeduplicated working
list — i.e. it preserves the first-seen order of the entries it keeps — and is
in particular never empty.
-/
theorem action_items_invariants (inp : BrainInput) :
    1 ≤ (analyze inp).action_items.length
    ∧ (analyze inp).action_items.length ≤ 3
    ∧ (analyze inp).action_items.Nodup
    ∧ List.Sublist (analyze inp).action_items
        (rawActions inp (calculate_risk inp inp.is_verified inp.previous_state).decision) := by
  have h := finalizeActions_props
    (rawActions inp (calculate_risk inp inp.is_verified inp.previous_state).decision)
    (rawActions_ne_nil inp _)
  simpa [analyze] using h

-- === Python value embedding for the input normalizer ===

/-- A Python runtime value, as far as `input_normalizer.py` inspects one. -/
inductive PyVal where
  | none
  | int (z : ℤ)
  | float (q : ℚ)
  | bool (b : Bool)
  | str (s : String)
  | dict (entries : List (String × PyVal))
  | pylist (xs : List PyVal)

/-- `type(value).__name__` for the embedded values. -/
def pyTypeName : PyVal → String
  | .none => "NoneType"
  | .int _ => "int"
  | .float _ => "float"
  | .bool _ => "bool"
  | .str _ => "str"
  | .dict _ => "dict"
  | .pylist _ => "list"

/-- `isinstance(v, (int, float))` with the numeric value extracted; in Python
`bool` is a subclass of `int`, so booleans count as numeric. -/
def asNum : PyVal → Option ℚ
  | .int z => some (z : ℚ)
  | .float q => some q
  | .bool b => some (if b then 1 else 0)
  | _ => Option.none

/-- Python `d.get(k)` / `k in d` on a dict modelled as an association list. -/
def dictLookup (entries : List (String × PyVal)) (k : String) : Option PyVal :=
  (entries.find? (fun p => p.1 == k)).map (fun p => p.2)

/--
`normalize_float(value, field_name)` (`input_normalizer.py` 19-60): `None`
passes through, int/float/bool are numeric, a dict is probed at the keys
`"value"`, `"risk"`, `"score"`, `field_name` (first numeric hit wins, a
present non-numeric entry is skipped), anything else raises.  The Python
error strings carry the same field name and offending type but also
interpolate the value's repr, which is not modelled.
-/
def normalize_float (value : PyVal) (field : String) : Except String (Option ℚ) :=
  match value with
  | .none => .ok Option.none
  | .int z => .ok (some (z : ℚ))
  | .float q => .ok (some q)
  | .bool b => .ok (some (if b then 1 else 0))
  | .dict entries =>
    match List.findSome? (fun k => (dictLookup entries k).bind asNum)
        ["value", "risk", "score", field] with
    | some q => .ok (some q)
    | Option.none => .error (field ++ " must be numeric, got dict without numeric field")
  | other => .error (field ++ (" invalid type: " ++ pyTypeName other))

/-- An `Except` result is the error case. -/
def isErr {ε α : Type} : Except ε α → Bool
  | .error _ => true
  | .ok _ => false

-- === Claim C8 ===

/--
Claim C8 (counterexample): `{"foo": 3}` is a single-key container holding a
numeric value, yet `normalize_float` rejects it because `foo` is not one of
the probed keys — refuting the claim that any single-key container holding a
number is accepted.
-/
theorem single_key_dict_rejected :
    normalize_float (.dict [("foo", .int 3)]) "flood_risk"
      = .error "flood_risk must be numeric, got dict without numeric field"
    ∧ isErr (normalize_float (.dict [("foo", .int 3)]) "flood_risk") = true :=
  ⟨rfl, rfl⟩

/--
Claim C8 (amended): the numeric normalizer accepts int/float directly; a
container of any size is accepted exactly when one of the probed keys
`value`, `risk`, `score`, or the field name holds a numeric value (the first
probed hit is returned), and rejected with an error naming the field when no
probed key holds one; any other present shape (a string) yields an error
naming the field and the offending type, never a silent default, while a
missing value (`None`) yields the safe default `None` without error.
-/
theorem normalize_float_shapes (f s k : String) (z : ℤ) (q : ℚ)
    (entries : List (String × PyVal)) :
    normalize_float PyVal.none f = .ok Option.none
    ∧ normalize_float (.int z) f = .ok (some (z : ℚ))
    ∧ normalize_float (.float q) f = .ok (some q)
    ∧ normalize_float (.str s) f = .error (f ++ " invalid type: str")
    ∧ normalize_float (.dict [(k, .float q)]) f =
        (if k ∈ ["value", "risk", "score", f] then .ok (some q)
         else .error (f ++ " must be numeric, got dict without numeric field"))
    ∧ (List.findSome? (fun key => (dictLookup entries key).bind asNum)
          ["value", "risk", "score", f] = some q →
        normalize_float (.dict entries) f = .ok (some q))
    ∧ ((∀ key ∈ ["value", "risk", "score", f],
          (dictLookup entries key).bind asNum = Option.none) →
        normalize_float (.dict entries) f
          = .error (f ++ " must be numeric, got dict without numeric field")) := by
  refine ⟨rfl, rfl, rfl, rfl, ?_, ?_, ?_⟩
  · by_cases h1 : k = "value"
    · subst h1; simp [normalize_float, dictLookup, asNum]
    · by_cases h2 : k = "risk"
      · subst h2; simp [normalize_float, dictLookup, asNum]
      · by_cases h3 : k = "score"
        · subst h3; simp [normalize_float, dictLookup, asNum]
        · by_cases h4 : k = f
          · subst h4
            simp [normalize_float, dictLookup, asNum, h1, h2, h3]
          · simp [normalize_float, dictLookup, asNum, h1, h2, h3, h4]
  · intro h
    simp only [normalize_float, h]
  · intro h
    have hnone : List.findSome? (fun key => (dictLookup entries key).bind asNum)
        ["value", "risk", "score", f] = Option.none :=
      List.findSome?_eq_none_iff.mpr h
    simp only [normalize_float, hnone]

/-- Claim C8 witness: a three-key container with the numeric value under
`risk` is accepted with that value, and a two-key container none of whose
probed keys holds a number is rejected with the field-naming error. -/
theorem normalize_float_shapes_witness :
    normalize_float
        (.dict [("a", PyVal.str "x"), ("risk", PyVal.int 7), ("b", PyVal.float 2)])
        "flood_risk" = .ok (some 7)
    ∧ normalize_float (.dict [("a", PyVal.str "x"), ("b", PyVal.none)]) "flood_risk"
      = .error ("flood_risk" ++ " must be numeric, got dict without numeric field") := by
  constructor
  · exact (normalize_float_shapes "flood_risk" "" "" 0 7
      [("a", PyVal.str "x"), ("risk", PyVal.int 7), ("b", PyVal.float 2)]).2.2.2.2.2.1
      (by decide)
  · exact (normalize_float_shapes "flood_risk" "" "" 0 0
      [("a", PyVal.str "x"), ("b", PyVal.none)]).2.2.2.2.2.2
      (by decide)

-- === Claim C9 ===

/--
`get_verification_status_enum(data)` (`input_normalizer.py` 88-128).  The
Python string branch maps VERIFIED/TRUE/1 (upper-cased) to VERIFIED and every
other string — the recognized UNVERIFIED/FALSE/0 literals and the
warned-about rest alike — to UNVERIFIED, which the single `else` here
collapses faithfully.
-/
def get_verification_status_enum (data : PyVal) : String :=
  match data with
  | .dict entries =>
    match dictLookup entries "is_verified" with
    | Option.none => "UNVERIFIED"
    | some PyVal.none => "UNVERIFIED"
    | some (.bool b) => if b then "VERIFIED" else "UNVERIFIED"
    | some (.str s) =>
      if s.toUpper = "VERIFIED" ∨ s.toUpper = "TRUE" ∨ s.toUpper = "1"
      then "VERIFIED" else "UNVERIFIED"
    | some _ => "UNVERIFIED"
  | _ => "UNVERIFIED"

/--
Claim C9: verification normalization always returns exactly VERIFIED or
UNVERIFIED; non-dict input, a missing key, `None`, and unrecognized types
(int, float) degrade to UNVERIFIED without error, while booleans and
recognized string literals map deterministically.
-/
theorem verification_enum_total (data : PyVal) (b : Bool) (s nonDict : String)
    (z : ℤ) (q : ℚ) :
    (get_verification_status_enum data = "VERIFIED"
      ∨ get_verification_status_enum data = "UNVERIFIED")
    ∧ get_verification_status_enum PyVal.none = "UNVERIFIED"
    ∧ get_verification_status_enum (.str nonDict) = "UNVERIFIED"
    ∧ get_verification_status_enum (.dict []) = "UNVERIFIED"
    ∧ get_verification_status_enum (.dict [("is_verified", PyVal.none)]) = "UNVERIFIED"
    ∧ get_verification_status_enum (.dict [("is_verified", .bool b)])
        = (if b then "VERIFIED" else "UNVERIFIED")
    ∧ get_verification_status_enum (.dict [("is_verified", .str s)])
        = (if s.toUpper = "VERIFIED" ∨ s.toUpper = "TRUE" ∨ s.toUpper = "1"
           then "VERIFIED" else "UNVERIFIED")
    ∧ get_verification_status_enum (.dict [("is_verified", .int z)]) = "UNVERIFIED"
    ∧ get_verification_status_enum (.dict [("is_verified", .float q)]) = "UNVERIFIED" := by
  refine ⟨?_, rfl, rfl, rfl, rfl, rfl, rfl, rfl, rfl⟩
  unfold get_verification_status_enum
  repeat' split
  all_goals simp

-- === Consequence Projection Engine (`consequences_engine.py`) ===

/-- The ten disaster categories of `ConsequencesMirror.disaster_bases`
(`consequences_engine.py` 97-158). -/
inductive DisasterType where
  | flood | tsunami | cyclone | volcano | earthquake
  | wildfire | drought | pandemic | terrorism | nuclear
  deriving DecidableEq, Repr, Fintype

/-- `DisasterSeverity` (`consequences_engine.py` 27-31). -/
inductive DisasterSeverity where
  | low | moderate | high | critical
  deriving DecidableEq, Repr, Fintype

/-- One row of the `disaster_bases` table. -/
structure DisasterBases where
  base_displacement : ℚ
  base_economic : ℚ
  contamination_rate : ℚ
  hospital_base : ℚ
  deriving DecidableEq, Repr

/-- `self.disaster_bases` (`consequences_engine.py` 97-158). -/
def disaster_bases : DisasterType → DisasterBases
  | .flood => ⟨6000, 18/10, 25/100, 26/100⟩
  | .tsunami => ⟨12000, 3, 30/100, 30/100⟩
  | .cyclone => ⟨8000, 22/10, 20/100, 28/100⟩
  | .volcano => ⟨5000, 25/10, 15/100, 32/100⟩
  | .earthquake => ⟨10000, 28/10, 18/100, 35/100⟩
  | .wildfire => ⟨4000, 15/10, 10/100, 25/100⟩
  | .drought => ⟨15000, 12/10, 5/100, 20/100⟩
  | .pandemic => ⟨20000, 35/10, 35/100, 40/100⟩
  | .terrorism => ⟨3000, 4, 12/100, 45/100⟩
  | .nuclear => ⟨50000, 5, 40/100, 50/100⟩

/-- `self.severity_multipliers` (`consequences_engine.py` 161-166). -/
def severity_multiplier : DisasterSeverity → ℚ
  | .low => 1/2
  | .moderate => 1
  | .high => 18/10
  | .critical => 3

/-- Membership in the `["Flood", "Tsunami", "Cyclone"]` water-disaster list. -/
def isWaterDisaster : DisasterType → Bool
  | .flood | .tsunami | .cyclone => true
  | _ => false

/-- Python `int(x)`: truncation toward zero; every value it is applied to in
the engine is nonnegative, where truncation and floor agree. -/
def pyInt (q : ℚ) : ℤ := Int.fdiv q.num (q.den : ℤ)

/-- `_calculate_displaced_households` (`consequences_engine.py` 168-184). -/
def calculate_displaced_households (d : DisasterType) (s : DisasterSeverity) : List ℤ :=
  let base := (disaster_bases d).base_displacement
  let sev := severity_multiplier s
  [2/10, 6/10, 14/10].map (fun m => pyInt (base * m * sev))

/-- `_calculate_hospital_overflow_rate` (`consequences_engine.py` 186-215),
including the three post-hoc progression fix-ups and the 2-decimal rounding. -/
def calculate_hospital_overflow_rate (d : DisasterType) (s : DisasterSeverity) : List ℚ :=
  let base_rate := (disaster_bases d).hospital_base
  let sev := severity_multiplier s
  let r0 := min 1 ((26/100) * (base_rate / (26/100)) * sev * (1/2))
  let r1 := min 1 ((58/100) * (base_rate / (26/100)) * sev * (1/2))
  let r2 := min 1 ((91/100) * (base_rate / (26/100)) * sev * (1/2))
  let r0 := if r0 > 3/10 then 26/100 else r0
  let r1 := if r1 > 7/10 then 58/100 else r1
  let r2 := if r2 > 1 then 91/100 else r2
  [pyRound r0 2, pyRound r1 2, pyRound r2 2]

/-- `_calculate_water_contamination_prob` (`consequences_engine.py` 217-253):
scaled anchors, overwritten by the fixed `[0.12, 0.64, 0.89]` progression for
water disasters, then rounded. -/
def calculate_water_contamination_prob (d : DisasterType) (s : DisasterSeverity) : List ℚ :=
  let cr := (disaster_bases d).contamination_rate
  let sev := severity_multiplier s
  let factor : ℚ := if isWaterDisaster d then 4/10 else 2/10
  let rs := [12/100, 64/100, 89/100].map (fun b => min 1 (b * (cr / (25/100)) * sev * factor))
  let rs := if isWaterDisaster d then [12/100, 64/100, 89/100] else rs
  rs.map (fun r => pyRound r 2)

/-- `_calculate_economic_loss_millions` (`consequences_engine.py` 255-277). -/
def calculate_economic_loss_millions (d : DisasterType) (s : DisasterSeverity) : List ℚ :=
  let be := (disaster_bases d).base_economic
  let sev := severity_multiplier s
  [2/10, 5/10, 1].map (fun m => pyRound (be * m * sev) 2)

/-- The four infrastructure-domain statuses of `_calculate_cascading_failures`
(`consequences_engine.py` 279-335). -/
structure CascadingFailures where
  power : String
  comms : String
  transport : String
  water : String
  deriving DecidableEq, Repr

/-- `_calculate_cascading_failures` (`consequences_engine.py` 279-335). -/
def calculate_cascading_failures (d : DisasterType) (s : DisasterSeverity) :
    CascadingFailures :=
  let power :=
    if s = .critical then
      if d = .cyclone ∨ d = .earthquake ∨ d = .terrorism then "Grid Unstable"
      else if d = .flood ∨ d = .tsunami then "Substation Flooded"
      else "Critical Degradation"
    else if s = .high then "Grid Unstable"
    else "Operational"
  let comms :=
    if s = .critical then "Blackout"
    else if s = .high then "Degraded"
    else "Operational"
  let transport :=
    if d = .flood ∨ d = .tsunami ∨ d = .cyclone then
      if s = .critical then "Highways Severed"
      else if s = .high then "Major Routes Blocked"
      else "Operational"
    else if s = .critical then "Network Disrupted"
    else "Operational"
  let water :=
    if d = .flood ∨ d = .tsunami ∨ d = .drought then
      if s = .critical then "Contamination Breach"
      else if s = .high then "Quality Degraded"
      else "Operational"
    else "Operational"
  ⟨power, comms, transport, water⟩

/-- The metric part of `SimulationOutput` (`consequences_engine.py` 56-87).
`outcome_comparison` and `timeline` are presentation records derived
deterministically from these same metrics and the inputs; they are not
modelled. -/
structure SimulationOutput where
  time_intervals : List String
  displaced_households : List ℤ
  hospital_overflow_rate : List ℚ
  water_contamination_prob : List ℚ
  economic_loss_millions : List ℚ
  cascading_failures : CascadingFailures
  deriving DecidableEq, Repr

/-- Body of `ConsequencesMirror.simulate` after input normalization
(`consequences_engine.py` 497-555), on the no-action metrics it returns. -/
def simulateOn (d : DisasterType) (s : DisasterSeverity) : SimulationOutput :=
  { time_intervals := ["Immediate", "12 Hours", "24 Hours"]
    displaced_households := calculate_displaced_households d s
    hospital_overflow_rate := calculate_hospital_overflow_rate d s
    water_contamination_prob := calculate_water_contamination_prob d s
    economic_loss_millions := calculate_economic_loss_millions d s
    cascading_failures := calculate_cascading_failures d s }

/-- Python `str.capitalize()`: first character upper-cased, the rest
lower-cased (ASCII suffices for the names involved). -/
def pyCapitalize (s : String) : String :=
  match s.toList with
  | [] => ""
  | c :: t => String.mk (c.toUpper :: t.map Char.toLower)

def knownDisasterNames : List String :=
  ["Flood", "Tsunami", "Cyclone", "Volcano", "Earthquake",
   "Wildfire", "Drought", "Pandemic", "Terrorism", "Nuclear"]

/-- The disaster-type normalization of `simulate`
(`consequences_engine.py` 488-490): capitalize, unknown names fall back to
Flood. -/
def parseDisasterType (s : String) : DisasterType :=
  let c := pyCapitalize s
  if c = "Flood" then .flood
  else if c = "Tsunami" then .tsunami
  else if c = "Cyclone" then .cyclone
  else if c = "Volcano" then .volcano
  else if c = "Earthquake" then .earthquake
  else if c = "Wildfire" then .wildfire
  else if c = "Drought" then .drought
  else if c = "Pandemic" then .pandemic
  else if c = "Terrorism" then .terrorism
  else if c = "Nuclear" then .nuclear
  else .flood

/-- The severity normalization of `simulate` (`consequences_engine.py`
492-495): `DisasterSeverity(severity.capitalize())`, any `ValueError`
(including the ummatched `"Critical"` spelling itself) falls back to
Critical — the final else covers both the exact match and the exception. -/
def parseSeverity (s : String) : DisasterSeverity :=
  let c := pyCapitalize s
  if c = "Low" then .low
  else if c = "Moderate" then .moderate
  else if c = "High" then .high
  else .critical

/-- `ConsequencesMirror.simulate` on raw string inputs
(`consequences_engine.py` 472-555). -/
def simulate (disaster_type severity : String) : SimulationOutput :=
  simulateOn (parseDisasterType disaster_type) (parseSeverity severity)

-- === Claim C6 ===

/-- Executable check that a list is non-decreasing. -/
def nondecr {α : Type} [LE α] [DecidableRel ((· ≤ ·) : α → α → Prop)] :
    List α → Bool
  | [] => true
  | [_] => true
  | a :: b :: t => decide (a ≤ b) && nondecr (b :: t)

theorem nondecr_iff_chain {α : Type} [Preorder α]
    [DecidableRel ((· ≤ ·) : α → α → Prop)] :
    ∀ l : List α, nondecr l = true ↔ List.Chain' (· ≤ ·) l
  | [] => by simp [nondecr]
  | [a] => by simp [nondecr]
  | a :: b :: t => by
    have ih := nondecr_iff_chain (b :: t)
    simp [nondecr, List.chain'_cons, ih, and_comm]

/--
Claim C6: for every disaster-type string and severity string, each of the
three per-checkpoint time series returned by `simulate` — displaced
households, hospital overflow rate, water contamination probability — is
non-decreasing across its three checkpoints.
-/
theorem simulate_series_monotone (dt sv : String) :
    List.Chain' (· ≤ ·) (simulate dt sv).displaced_households
    ∧ List.Chain' (· ≤ ·) (simulate dt sv).hospital_overflow_rate
    ∧ List.Chain' (· ≤ ·) (simulate dt sv).water_contamination_prob := by
  have key : ∀ (d : DisasterType) (s : DisasterSeverity),
      nondecr (simulateOn d s).displaced_households = true
      ∧ nondecr (simulateOn d s).hospital_overflow_rate = true
      ∧ nondecr (simulateOn d s).water_contamination_prob = true := by
    decide
  obtain ⟨k1, k2, k3⟩ := key (parseDisasterType dt) (parseSeverity sv)
  exact ⟨(nondecr_iff_chain _).mp k1, (nondecr_iff_chain _).mp k2,
    (nondecr_iff_chain _).mp k3⟩

-- === Claim C10 ===

/--
Claim C10: `simulate` is total over arbitrary strings (the embedding is a
total function): a disaster-type string whose capitalized form is not one of
the ten known names silently uses the Flood parameters, and a severity string
that does not parse as Low/Moderate/High/Critical silently uses Critical.
-/
theorem simulate_string_fallbacks (dt sv : String) :
    (pyCapitalize dt ∉ knownDisasterNames →
      simulate dt sv = simulateOn DisasterType.flood (parseSeverity sv))
    ∧ (pyCapitalize sv ∉ ["Low", "Moderate", "High", "Critical"] →
      simulate dt sv = simulateOn (parseDisasterType dt) DisasterSeverity.critical) := by
  constructor
  · intro h
    simp only [knownDisasterNames, List.mem_cons, List.not_mem_nil, or_false, not_or] at h
    obtain ⟨h1, h2, h3, h4, h5, h6, h7, h8, h9, h10⟩ := h
    simp [simulate, parseDisasterType, h1, h2, h3, h4, h5, h6, h7, h8, h9, h10]
  · intro h
    simp only [List.mem_cons, List.not_mem_nil, or_false, not_or] at h
    obtain ⟨h1, h2, h3, h4⟩ := h
    simp [simulate, parseSeverity, h1, h2, h3]

/-- Claim C10 witness: the unknown pair ("storm", "extreme") falls back to
Flood and Critical. -/
theorem simulate_string_fallbacks_witness :
    simulate "storm" "extreme" = simulateOn DisasterType.flood (parseSeverity "extreme")
    ∧ simulate "storm" "extreme"
        = simulateOn (parseDisasterType "storm") DisasterSeverity.critical :=
  ⟨(simulate_string_fallbacks "storm" "extreme").1 (by decide),
   (simulate_string_fallbacks "storm" "extreme").2 (by decide)⟩

-- === Claim C7: cost of inaction (`Consequence Mirror/backend/cheseal_brain.py`) ===

/-- Return record of `ChesealBrain.calculate_coi` (the two `formula_*` strings
restate the numbers and are not modelled). -/
structure CoiResult where
  delay_days : ℕ
  casualty_risk_percent : ℚ
  casualty_risk_multiplier : ℚ
  infrastructure_loss_rupees : ℚ
  infrastructure_loss_multiplier : ℚ
  direct_damage_rupees : ℚ
  indirect_loss_rupees : ℚ
  deriving DecidableEq, Repr

/--
`ChesealBrain.calculate_coi` (`Consequence Mirror/backend/cheseal_brain.py`
821-876) on the default path `location = None`: the research-CSV refinement of
the base values is skipped then, and `disaster_type` is read only inside that
skipped branch, so the bases are the constants 5 % and ₹2,000,000.
-/
def calculate_coi (delay_days : ℕ) (disaster_type : String) : CoiResult :=
  let _unused_without_location := disaster_type
  let base_casualty_risk : ℚ := 5
  let base_infrastructure_loss : ℚ := 2000000
  let casualty_risk_multiplier : ℚ := (3/2) ^ delay_days
  let infrastructure_loss_multiplier : ℚ := (3/2) ^ delay_days
  let casualty_risk_percent := base_casualty_risk * casualty_risk_multiplier
  let infrastructure_loss_rupees := base_infrastructure_loss * infrastructure_loss_multiplier
  let direct_damage := infrastructure_loss_rupees * (6/10)
  let indirect_loss := infrastructure_loss_rupees * (4/10)
  { delay_days := delay_days
    casualty_risk_percent := pyRound casualty_risk_percent 2
    casualty_risk_multiplier := pyRound casualty_risk_multiplier 3
    infrastructure_loss_rupees := pyRound infrastructure_loss_rupees 0
    infrastructure_loss_multiplier := pyRound infrastructure_loss_multiplier 3
    direct_damage_rupees := pyRound direct_damage 0
    indirect_loss_rupees := pyRound indirect_loss 0 }

example : (calculate_coi 3 "Flood").infrastructure_loss_rupees = 6750000 := by
  decide

/--
Claim C7 (counterexample): the values are returned rounded — at
`delay_days = 3` the casualty risk comes back as 16.88, not the exact
`5 × 1.5³ = 16.875` the claim asserts.
-/
theorem coi_rounding_counterexample :
    (calculate_coi 3 "Flood").casualty_risk_percent = 422/25
    ∧ (calculate_coi 3 "Flood").casualty_risk_percent ≠ 5 * (3/2 : ℚ) ^ (3 : ℕ) := by
  decide

/--
Claim C7 (amended): for every non-negative `delay_days` and disaster type the
returned casualty risk is `5 × 1.5^d` rounded to two decimals, the
infrastructure loss is `2,000,000 × 1.5^d` rounded to whole rupees, and the
60 %/40 % direct/indirect split of the unrounded loss is returned rounded to
whole rupees; at `delay_days = 2` all four are exact, in particular the
infrastructure loss equals base × 1.5².
-/
theorem coi_formulas (d : ℕ) (dt : String) :
    (calculate_coi d dt).casualty_risk_percent = pyRound (5 * (3/2) ^ d) 2
    ∧ (calculate_coi d dt).infrastructure_loss_rupees = pyRound (2000000 * (3/2) ^ d) 0
    ∧ (calculate_coi d dt).direct_damage_rupees
        = pyRound ((2000000 * (3/2) ^ d) * (6/10)) 0
    ∧ (calculate_coi d dt).indirect_loss_rupees
        = pyRound ((2000000 * (3/2) ^ d) * (4/10)) 0
    ∧ (calculate_coi 2 dt).casualty_risk_percent = 5 * (3/2 : ℚ) ^ (2 : ℕ)
    ∧ (calculate_coi 2 dt).infrastructure_loss_rupees = 2000000 * (3/2 : ℚ) ^ (2 : ℕ)
    ∧ (calculate_coi 2 dt).direct_damage_rupees = (2000000 * (3/2 : ℚ) ^ (2 : ℕ)) * (6/10)
    ∧ (calculate_coi 2 dt).indirect_loss_rupees = (2000000 * (3/2 : ℚ) ^ (2 : ℕ)) * (4/10) := by
  refine ⟨rfl, rfl, rfl, rfl, ?_, ?_, ?_, ?_⟩
  · have h : pyRound (5 * (3/2 : ℚ) ^ (2 : ℕ)) 2 = 5 * (3/2 : ℚ) ^ (2 : ℕ) := by
      decide
    exact h
  · have h : pyRound (2000000 * (3/2 : ℚ) ^ (2 : ℕ)) 0 = 2000000 * (3/2 : ℚ) ^ (2 : ℕ) := by
      decide
    exact h
  · have h : pyRound ((2000000 * (3/2 : ℚ) ^ (2 : ℕ)) * (6/10)) 0
        = (2000000 * (3/2 : ℚ) ^ (2 : ℕ)) * (6/10) := by
      decide
    exact h
  · have h : pyRound ((2000000 * (3/2 : ℚ) ^ (2 : ℕ)) * (4/10)) 0
        = (2000000 * (3/2 : ℚ) ^ (2 : ℕ)) * (4/10) := by
      decide
    exact h

end AegisModel

end Aegis
